import Mathlib

/-!
# Verification of the taylor_dashboard analytics aggregation engine

Shallow embedding of the analytics/aggregation core of the dashboard
(`src/lib/utils.ts` date-range calculator, `src/lib/clickhouse.ts` metrics
derivation / reducer / orchestrator, scorecard scorer) in Lean 4, together
with theorems settling the specification claims.

Modelling conventions:
* JavaScript `number` is embedded as `ℚ` (exact rational arithmetic); the
  engine's values are counts and decimal sums, for which the spec reasons
  mathematically.  Floating-point rounding is outside the embedding.
* JavaScript `Date` is embedded at day granularity as an integer day number
  (days since 1970-01-01, proleptic Gregorian), with `getFullYear`,
  `getMonth`, `getDate`, `getDay`, `setMonth`, `setDate` and the
  `new Date(y, m, d)` constructor given the ECMAScript `MakeDay` semantics
  (out-of-range month/day fields normalise by rolling over).  Time-of-day
  normalisation (`setHours(0,0,0,0)` / `setHours(23,59,59,999)`) does not
  affect any day-level field and is not modelled.
* Database rows arrive as strings and are parsed with `parseInt(x) || 0` /
  `parseFloat(x) || 0`; a count field is embedded as `Option ℚ`, where
  `none` stands for a string whose numeric parse fails (`NaN`), so the
  `|| 0` fallback becomes `Option.getD 0`.
* The fetch orchestrator's per-task `try/catch` is embedded by letting each
  task yield `Except String PeriodKPIs`; the accumulation loops are folds,
  exactly as the source accumulates batch results sequentially.
-/

/-! ## Metrics data model (`src/types/index.ts`) -/

/-- Derived collections/inbound metrics record (`CollectionsMetrics`). -/
structure CollectionsMetrics where
  accounts : ℚ
  calls : ℚ
  callsPerAccount : ℚ
  connects : ℚ
  connectRate : ℚ
  rpcs : ℚ
  rpcRate : ℚ
  promises : ℚ
  promisesPerRpc : ℚ
  cashPayments : ℚ
  cashPerRpc : ℚ
  cashPerPromises : ℚ
  transfers : ℚ
  transfersPerRpc : ℚ
  timeOnCallHours : ℚ
  avgTimePerCallMin : ℚ
  dollarPromised : ℚ
  dollarCollected : ℚ
  avgPaymentAmount : ℚ
  dollarPerRpc : ℚ
  deriving DecidableEq, Repr

/-- Derived welcome/verification metrics record (`WelcomeVerificationMetrics`). -/
structure WelcomeVerificationMetrics where
  accounts : ℚ
  calls : ℚ
  callsPerAccount : ℚ
  connects : ℚ
  connectRate : ℚ
  rpcs : ℚ
  rpcRate : ℚ
  eligible : ℚ
  eligiblePerRpc : ℚ
  completed : ℚ
  completedPerEligible : ℚ
  completedPerRpc : ℚ
  incomplete : ℚ
  deriving DecidableEq, Repr

/-- One metrics record per call-flow category for one window (`PeriodKPIs`). -/
structure PeriodKPIs where
  collections : CollectionsMetrics
  inbound : CollectionsMetrics
  welcome : WelcomeVerificationMetrics
  verification : WelcomeVerificationMetrics
  deriving DecidableEq, Repr

/-- Raw counters consumed by `calculateDerivedCollectionsMetrics` (the inline
parameter record in `src/lib/clickhouse.ts`). -/
structure RawCollectionsCounts where
  accounts : ℚ
  calls : ℚ
  connects : ℚ
  rpcs : ℚ
  promises : ℚ
  cashPayments : ℚ
  transfers : ℚ
  durationMinutes : ℚ
  dollarPromised : ℚ
  dollarCollected : ℚ
  deriving DecidableEq, Repr

/-- Raw counters consumed by `calculateDerivedWelcomeMetrics`. -/
structure RawWelcomeCounts where
  accounts : ℚ
  calls : ℚ
  connects : ℚ
  rpcs : ℚ
  eligible : ℚ
  completed : ℚ
  deriving DecidableEq, Repr

/-! ## Safe division and metrics derivation (`src/lib/clickhouse.ts`) -/

/-- Safe division helper: `a/b → 0` when `b = 0`. -/
def safeDivide (numerator denominator : ℚ) : ℚ :=
  if denominator = 0 then 0 else numerator / denominator

/-- Derivation of the collections/inbound metrics record from raw counters. -/
def calculateDerivedCollectionsMetrics (raw : RawCollectionsCounts) : CollectionsMetrics :=
  { accounts := raw.accounts
    calls := raw.calls
    callsPerAccount := safeDivide raw.calls raw.accounts
    connects := raw.connects
    connectRate := safeDivide raw.connects raw.calls * 100
    rpcs := raw.rpcs
    rpcRate := safeDivide raw.rpcs raw.connects * 100
    promises := raw.promises
    promisesPerRpc := safeDivide raw.promises raw.rpcs * 100
    cashPayments := raw.cashPayments
    cashPerRpc := safeDivide raw.cashPayments raw.rpcs * 100
    cashPerPromises := safeDivide raw.cashPayments raw.promises * 100
    transfers := raw.transfers
    transfersPerRpc := safeDivide raw.transfers raw.rpcs * 100
    timeOnCallHours := raw.durationMinutes / 60
    avgTimePerCallMin := safeDivide raw.durationMinutes raw.calls
    dollarPromised := raw.dollarPromised
    dollarCollected := raw.dollarCollected
    avgPaymentAmount := safeDivide raw.dollarCollected raw.cashPayments
    dollarPerRpc := safeDivide raw.dollarCollected raw.rpcs }

/-- Derivation of the welcome/verification metrics record from raw counters. -/
def calculateDerivedWelcomeMetrics (raw : RawWelcomeCounts) : WelcomeVerificationMetrics :=
  { accounts := raw.accounts
    calls := raw.calls
    callsPerAccount := safeDivide raw.calls raw.accounts
    connects := raw.connects
    connectRate := safeDivide raw.connects raw.calls * 100
    rpcs := raw.rpcs
    rpcRate := safeDivide raw.rpcs raw.connects * 100
    eligible := raw.eligible
    eligiblePerRpc := safeDivide raw.eligible raw.rpcs * 100
    completed := raw.completed
    completedPerEligible := safeDivide raw.completed raw.eligible * 100
    completedPerRpc := safeDivide raw.completed raw.rpcs * 100
    incomplete := raw.eligible - raw.completed }

/-- All-zero collections metrics record (`emptyCollectionsMetrics`). -/
def emptyCollectionsMetrics : CollectionsMetrics :=
  { accounts := 0, calls := 0, callsPerAccount := 0, connects := 0, connectRate := 0
    rpcs := 0, rpcRate := 0, promises := 0, promisesPerRpc := 0, cashPayments := 0
    cashPerRpc := 0, cashPerPromises := 0, transfers := 0, transfersPerRpc := 0
    timeOnCallHours := 0, avgTimePerCallMin := 0, dollarPromised := 0
    dollarCollected := 0, avgPaymentAmount := 0, dollarPerRpc := 0 }

/-- All-zero welcome/verification metrics record (`emptyWelcomeVerificationMetrics`). -/
def emptyWelcomeVerificationMetrics : WelcomeVerificationMetrics :=
  { accounts := 0, calls := 0, callsPerAccount := 0, connects := 0, connectRate := 0
    rpcs := 0, rpcRate := 0, eligible := 0, eligiblePerRpc := 0, completed := 0
    completedPerEligible := 0, completedPerRpc := 0, incomplete := 0 }

/-- All-zero period KPI record (`emptyPeriodKPIs`). -/
def emptyPeriodKPIs : PeriodKPIs :=
  { collections := emptyCollectionsMetrics
    inbound := emptyCollectionsMetrics
    welcome := emptyWelcomeVerificationMetrics
    verification := emptyWelcomeVerificationMetrics }

/-- Reducer: sum two `PeriodKPIs` records field-wise on the raw counters,
zeroing every derived rate field ("will be recalculated"). -/
def sumPeriodKPIs (a b : PeriodKPIs) : PeriodKPIs :=
  { collections :=
      { accounts := a.collections.accounts + b.collections.accounts
        calls := a.collections.calls + b.collections.calls
        callsPerAccount := 0
        connects := a.collections.connects + b.collections.connects
        connectRate := 0
        rpcs := a.collections.rpcs + b.collections.rpcs
        rpcRate := 0
        promises := a.collections.promises + b.collections.promises
        promisesPerRpc := 0
        cashPayments := a.collections.cashPayments + b.collections.cashPayments
        cashPerRpc := 0
        cashPerPromises := 0
        transfers := a.collections.transfers + b.collections.transfers
        transfersPerRpc := 0
        timeOnCallHours := a.collections.timeOnCallHours + b.collections.timeOnCallHours
        avgTimePerCallMin := 0
        dollarPromised := a.collections.dollarPromised + b.collections.dollarPromised
        dollarCollected := a.collections.dollarCollected + b.collections.dollarCollected
        avgPaymentAmount := 0
        dollarPerRpc := 0 }
    inbound :=
      { accounts := a.inbound.accounts + b.inbound.accounts
        calls := a.inbound.calls + b.inbound.calls
        callsPerAccount := 0
        connects := a.inbound.connects + b.inbound.connects
        connectRate := 0
        rpcs := a.inbound.rpcs + b.inbound.rpcs
        rpcRate := 0
        promises := a.inbound.promises + b.inbound.promises
        promisesPerRpc := 0
        cashPayments := a.inbound.cashPayments + b.inbound.cashPayments
        cashPerRpc := 0
        cashPerPromises := 0
        transfers := a.inbound.transfers + b.inbound.transfers
        transfersPerRpc := 0
        timeOnCallHours := a.inbound.timeOnCallHours + b.inbound.timeOnCallHours
        avgTimePerCallMin := 0
        dollarPromised := a.inbound.dollarPromised + b.inbound.dollarPromised
        dollarCollected := a.inbound.dollarCollected + b.inbound.dollarCollected
        avgPaymentAmount := 0
        dollarPerRpc := 0 }
    welcome :=
      { accounts := a.welcome.accounts + b.welcome.accounts
        calls := a.welcome.calls + b.welcome.calls
        callsPerAccount := 0
        connects := a.welcome.connects + b.welcome.connects
        connectRate := 0
        rpcs := a.welcome.rpcs + b.welcome.rpcs
        rpcRate := 0
        eligible := a.welcome.eligible + b.welcome.eligible
        eligiblePerRpc := 0
        completed := a.welcome.completed + b.welcome.completed
        completedPerEligible := 0
        completedPerRpc := 0
        incomplete := a.welcome.incomplete + b.welcome.incomplete }
    verification :=
      { accounts := a.verification.accounts + b.verification.accounts
        calls := a.verification.calls + b.verification.calls
        callsPerAccount := 0
        connects := a.verification.connects + b.verification.connects
        connectRate := 0
        rpcs := a.verification.rpcs + b.verification.rpcs
        rpcRate := 0
        eligible := a.verification.eligible + b.verification.eligible
        eligiblePerRpc := 0
        completed := a.verification.completed + b.verification.completed
        completedPerEligible := 0
        completedPerRpc := 0
        incomplete := a.verification.incomplete + b.verification.incomplete } }

/-- Recompute every derived rate field of a combined `PeriodKPIs` from its
raw counters (`recalculateDerivedMetrics`). -/
def recalculateDerivedMetrics (kpis : PeriodKPIs) : PeriodKPIs :=
  { collections := calculateDerivedCollectionsMetrics
      { accounts := kpis.collections.accounts
        calls := kpis.collections.calls
        connects := kpis.collections.connects
        rpcs := kpis.collections.rpcs
        promises := kpis.collections.promises
        cashPayments := kpis.collections.cashPayments
        transfers := kpis.collections.transfers
        durationMinutes := kpis.collections.timeOnCallHours * 60
        dollarPromised := kpis.collections.dollarPromised
        dollarCollected := kpis.collections.dollarCollected }
    inbound := calculateDerivedCollectionsMetrics
      { accounts := kpis.inbound.accounts
        calls := kpis.inbound.calls
        connects := kpis.inbound.connects
        rpcs := kpis.inbound.rpcs
        promises := kpis.inbound.promises
        cashPayments := kpis.inbound.cashPayments
        transfers := kpis.inbound.transfers
        durationMinutes := kpis.inbound.timeOnCallHours * 60
        dollarPromised := kpis.inbound.dollarPromised
        dollarCollected := kpis.inbound.dollarCollected }
    welcome := calculateDerivedWelcomeMetrics
      { accounts := kpis.welcome.accounts
        calls := kpis.welcome.calls
        connects := kpis.welcome.connects
        rpcs := kpis.welcome.rpcs
        eligible := kpis.welcome.eligible
        completed := kpis.welcome.completed }
    verification := calculateDerivedWelcomeMetrics
      { accounts := kpis.verification.accounts
        calls := kpis.verification.calls
        connects := kpis.verification.connects
        rpcs := kpis.verification.rpcs
        eligible := kpis.verification.eligible
        completed := kpis.verification.completed } }

/-- C1: the reducer `sumPeriodKPIs` is commutative and associative: for all
`PeriodKPIs` records `a`, `b`, `c`, `sumPeriodKPIs a b = sumPeriodKPIs b a`
and `sumPeriodKPIs (sumPeriodKPIs a b) c = sumPeriodKPIs a (sumPeriodKPIs b c)`,
so batched any-order fan-in produces the identical combined record. -/
theorem sumPeriodKPIs_comm_assoc (a b c : PeriodKPIs) :
    sumPeriodKPIs a b = sumPeriodKPIs b a ∧
    sumPeriodKPIs (sumPeriodKPIs a b) c = sumPeriodKPIs a (sumPeriodKPIs b c) := by
  constructor <;>
    simp only [sumPeriodKPIs, PeriodKPIs.mk.injEq, CollectionsMetrics.mk.injEq,
      WelcomeVerificationMetrics.mk.injEq, and_true, true_and] <;>
    and_intros <;> ring

/-! ## Raw-sum-then-derive commutation (C2) -/

/-- Wrap a collections metrics record into a `PeriodKPIs` whose other
categories are empty (used for the concrete fan-in scenario). -/
def kpisOfCollections (m : CollectionsMetrics) : PeriodKPIs :=
  { collections := m
    inbound := emptyCollectionsMetrics
    welcome := emptyWelcomeVerificationMetrics
    verification := emptyWelcomeVerificationMetrics }

/-- Concrete raw aggregate of a first client for the fan-in scenario. -/
def clientAraw : RawCollectionsCounts :=
  { accounts := 10, calls := 100, connects := 50, rpcs := 25, promises := 10
    cashPayments := 5, transfers := 5, durationMinutes := 60
    dollarPromised := 100, dollarCollected := 50 }

/-- Concrete raw aggregate of a second client for the fan-in scenario. -/
def clientBraw : RawCollectionsCounts :=
  { accounts := 10, calls := 300, connects := 30, rpcs := 15, promises := 6
    cashPayments := 3, transfers := 3, durationMinutes := 90
    dollarPromised := 60, dollarCollected := 30 }

/-- C2: combining two `PeriodKPIs` with the reducer and recalculating is the
derivation applied to the field-wise sum of the raw counters — every raw
counter of the result is the field-wise sum and every rate field is
recomputed from those summed raw fields.  Moreover, on a concrete pair of
clients, summing raw aggregates then deriving equals deriving each
separately then combining via the reducer, while directly summing (60) or
averaging (30) the two already-derived `connectRate` values diverges from
the correctly recombined rate (20). -/
theorem recalc_sum_commutes_with_derivation :
    (∀ a b : PeriodKPIs,
      recalculateDerivedMetrics (sumPeriodKPIs a b) =
        { collections := calculateDerivedCollectionsMetrics
            { accounts := a.collections.accounts + b.collections.accounts
              calls := a.collections.calls + b.collections.calls
              connects := a.collections.connects + b.collections.connects
              rpcs := a.collections.rpcs + b.collections.rpcs
              promises := a.collections.promises + b.collections.promises
              cashPayments := a.collections.cashPayments + b.collections.cashPayments
              transfers := a.collections.transfers + b.collections.transfers
              durationMinutes :=
                (a.collections.timeOnCallHours + b.collections.timeOnCallHours) * 60
              dollarPromised := a.collections.dollarPromised + b.collections.dollarPromised
              dollarCollected := a.collections.dollarCollected + b.collections.dollarCollected }
          inbound := calculateDerivedCollectionsMetrics
            { accounts := a.inbound.accounts + b.inbound.accounts
              calls := a.inbound.calls + b.inbound.calls
              connects := a.inbound.connects + b.inbound.connects
              rpcs := a.inbound.rpcs + b.inbound.rpcs
              promises := a.inbound.promises + b.inbound.promises
              cashPayments := a.inbound.cashPayments + b.inbound.cashPayments
              transfers := a.inbound.transfers + b.inbound.transfers
              durationMinutes :=
                (a.inbound.timeOnCallHours + b.inbound.timeOnCallHours) * 60
              dollarPromised := a.inbound.dollarPromised + b.inbound.dollarPromised
              dollarCollected := a.inbound.dollarCollected + b.inbound.dollarCollected }
          welcome := calculateDerivedWelcomeMetrics
            { accounts := a.welcome.accounts + b.welcome.accounts
              calls := a.welcome.calls + b.welcome.calls
              connects := a.welcome.connects + b.welcome.connects
              rpcs := a.welcome.rpcs + b.welcome.rpcs
              eligible := a.welcome.eligible + b.welcome.eligible
              completed := a.welcome.completed + b.welcome.completed }
          verification := calculateDerivedWelcomeMetrics
            { accounts := a.verification.accounts + b.verification.accounts
              calls := a.verification.calls + b.verification.calls
              connects := a.verification.connects + b.verification.connects
              rpcs := a.verification.rpcs + b.verification.rpcs
              eligible := a.verification.eligible + b.verification.eligible
              completed := a.verification.completed + b.verification.completed } }) ∧
    (recalculateDerivedMetrics
        (sumPeriodKPIs (kpisOfCollections (calculateDerivedCollectionsMetrics clientAraw))
          (kpisOfCollections (calculateDerivedCollectionsMetrics clientBraw)))).collections =
      calculateDerivedCollectionsMetrics
        { accounts := 20, calls := 400, connects := 80, rpcs := 40, promises := 16
          cashPayments := 8, transfers := 8, durationMinutes := 150
          dollarPromised := 160, dollarCollected := 80 } ∧
    (recalculateDerivedMetrics
        (sumPeriodKPIs (kpisOfCollections (calculateDerivedCollectionsMetrics clientAraw))
          (kpisOfCollections (calculateDerivedCollectionsMetrics clientBraw)))).collections.connectRate
      = 20 ∧
    (calculateDerivedCollectionsMetrics clientAraw).connectRate +
        (calculateDerivedCollectionsMetrics clientBraw).connectRate = 60 ∧
    (calculateDerivedCollectionsMetrics clientAraw).connectRate +
        (calculateDerivedCollectionsMetrics clientBraw).connectRate ≠
      (recalculateDerivedMetrics
        (sumPeriodKPIs (kpisOfCollections (calculateDerivedCollectionsMetrics clientAraw))
          (kpisOfCollections (calculateDerivedCollectionsMetrics clientBraw)))).collections.connectRate ∧
    ((calculateDerivedCollectionsMetrics clientAraw).connectRate +
        (calculateDerivedCollectionsMetrics clientBraw).connectRate) / 2 ≠
      (recalculateDerivedMetrics
        (sumPeriodKPIs (kpisOfCollections (calculateDerivedCollectionsMetrics clientAraw))
          (kpisOfCollections (calculateDerivedCollectionsMetrics clientBraw)))).collections.connectRate := by
  refine ⟨fun a b => rfl, ?_, ?_, ?_, ?_, ?_⟩ <;>
    simp only [recalculateDerivedMetrics, sumPeriodKPIs, kpisOfCollections,
      calculateDerivedCollectionsMetrics, calculateDerivedWelcomeMetrics, clientAraw,
      clientBraw, emptyCollectionsMetrics, emptyWelcomeVerificationMetrics, safeDivide,
      CollectionsMetrics.mk.injEq] <;> norm_num

/-! ## Safe-divide derivation formulas (C3) -/

/-- C3: the collections/inbound derivation computes exactly the specified
quotients — `callsPerAccount = calls/accounts`, `connectRate =
connects/calls·100`, `rpcRate = rpcs/connects·100`, `promisesPerRpc =
promises/rpcs·100`, `cashPerRpc = cashPayments/rpcs·100`, `cashPerPromises =
cashPayments/promises·100`, `transfersPerRpc = transfers/rpcs·100`,
`timeOnCallHours = durationMinutes/60`, `avgTimePerCallMin =
durationMinutes/calls`, `avgPaymentAmount = dollarCollected/cashPayments`,
`dollarPerRpc = dollarCollected/rpcs` — where every quotient with a zero
denominator evaluates to 0, including `0/0`. -/
theorem calculateDerivedCollectionsMetrics_formulas :
    (∀ raw : RawCollectionsCounts,
      (calculateDerivedCollectionsMetrics raw).callsPerAccount =
        (if raw.accounts = 0 then 0 else raw.calls / raw.accounts) ∧
      (calculateDerivedCollectionsMetrics raw).connectRate =
        (if raw.calls = 0 then 0 else raw.connects / raw.calls) * 100 ∧
      (calculateDerivedCollectionsMetrics raw).rpcRate =
        (if raw.connects = 0 then 0 else raw.rpcs / raw.connects) * 100 ∧
      (calculateDerivedCollectionsMetrics raw).promisesPerRpc =
        (if raw.rpcs = 0 then 0 else raw.promises / raw.rpcs) * 100 ∧
      (calculateDerivedCollectionsMetrics raw).cashPerRpc =
        (if raw.rpcs = 0 then 0 else raw.cashPayments / raw.rpcs) * 100 ∧
      (calculateDerivedCollectionsMetrics raw).cashPerPromises =
        (if raw.promises = 0 then 0 else raw.cashPayments / raw.promises) * 100 ∧
      (calculateDerivedCollectionsMetrics raw).transfersPerRpc =
        (if raw.rpcs = 0 then 0 else raw.transfers / raw.rpcs) * 100 ∧
      (calculateDerivedCollectionsMetrics raw).timeOnCallHours =
        raw.durationMinutes / 60 ∧
      (calculateDerivedCollectionsMetrics raw).avgTimePerCallMin =
        (if raw.calls = 0 then 0 else raw.durationMinutes / raw.calls) ∧
      (calculateDerivedCollectionsMetrics raw).avgPaymentAmount =
        (if raw.cashPayments = 0 then 0 else raw.dollarCollected / raw.cashPayments) ∧
      (calculateDerivedCollectionsMetrics raw).dollarPerRpc =
        (if raw.rpcs = 0 then 0 else raw.dollarCollected / raw.rpcs)) ∧
    (∀ x : ℚ, safeDivide x 0 = 0) ∧
    safeDivide 0 0 = 0 := by
  refine ⟨fun raw => ?_, fun x => rfl, rfl⟩
  and_intros <;> rfl

/-! ## Rate bounds under the funnel invariant (C5) -/

/-- Safe division of nonnegative values is nonnegative. -/
theorem safeDivide_nonneg {a b : ℚ} (ha : 0 ≤ a) (hb : 0 ≤ b) : 0 ≤ safeDivide a b := by
  unfold safeDivide
  split_ifs
  · exact le_refl 0
  · exact div_nonneg ha hb

/-- Safe division is at most one when the numerator is nonnegative and at
most the denominator. -/
theorem safeDivide_le_one {a b : ℚ} (ha : 0 ≤ a) (hab : a ≤ b) : safeDivide a b ≤ 1 := by
  unfold safeDivide
  split_ifs with h
  · norm_num
  · exact (div_le_one (lt_of_le_of_ne (ha.trans hab) (Ne.symm h))).mpr hab

/-- Raw aggregate satisfying the claim's hypotheses (`connects ≤ calls`,
`rpcs ≤ connects`) on which `promisesPerRpc`, `cashPerRpc`,
`cashPerPromises` and `transfersPerRpc` all exceed 100. -/
def funnelOnlyRaw : RawCollectionsCounts :=
  { accounts := 1, calls := 2, connects := 1, rpcs := 1, promises := 2
    cashPayments := 3, transfers := 5, durationMinutes := 0
    dollarPromised := 0, dollarCollected := 0 }

/-- C5 counterexample: on a nonnegative raw aggregate with
`connects ≤ calls` and `rpcs ≤ connects` (1 ≤ 2 and 1 ≤ 1), the derived
`promisesPerRpc` is 200, `cashPerRpc` is 300, `cashPerPromises` is 150 and
`transfersPerRpc` is 500 — none of them lies in [0,100], refuting the claim
that those hypotheses alone bound all six rates by 100. -/
theorem derivedRates_unbounded_counterexample :
    funnelOnlyRaw.connects ≤ funnelOnlyRaw.calls ∧
    funnelOnlyRaw.rpcs ≤ funnelOnlyRaw.connects ∧
    (calculateDerivedCollectionsMetrics funnelOnlyRaw).promisesPerRpc = 200 ∧
    (calculateDerivedCollectionsMetrics funnelOnlyRaw).cashPerRpc = 300 ∧
    (calculateDerivedCollectionsMetrics funnelOnlyRaw).cashPerPromises = 150 ∧
    (calculateDerivedCollectionsMetrics funnelOnlyRaw).transfersPerRpc = 500 ∧
    ¬ (calculateDerivedCollectionsMetrics funnelOnlyRaw).promisesPerRpc ≤ 100 := by
  simp only [calculateDerivedCollectionsMetrics, funnelOnlyRaw, safeDivide]
  norm_num

/-- C5 amended: for a nonnegative raw aggregate with `connects ≤ calls` and
`rpcs ≤ connects`, the derived `connectRate` and `rpcRate` lie in [0,100]
and all six rates are nonnegative; `promisesPerRpc`, `cashPerRpc`,
`cashPerPromises` and `transfersPerRpc` are bounded by 100 only under the
additional hypotheses `promises ≤ rpcs`, `cashPayments ≤ rpcs`,
`cashPayments ≤ promises` and `transfers ≤ rpcs` respectively. -/
theorem derivedRates_bounds (raw : RawCollectionsCounts)
    (hconn : 0 ≤ raw.connects) (hrpc : 0 ≤ raw.rpcs) (hprom : 0 ≤ raw.promises)
    (hcash : 0 ≤ raw.cashPayments) (htr : 0 ≤ raw.transfers)
    (hcc : raw.connects ≤ raw.calls) (hrc : raw.rpcs ≤ raw.connects) :
    (0 ≤ (calculateDerivedCollectionsMetrics raw).connectRate ∧
      (calculateDerivedCollectionsMetrics raw).connectRate ≤ 100) ∧
    (0 ≤ (calculateDerivedCollectionsMetrics raw).rpcRate ∧
      (calculateDerivedCollectionsMetrics raw).rpcRate ≤ 100) ∧
    0 ≤ (calculateDerivedCollectionsMetrics raw).promisesPerRpc ∧
    0 ≤ (calculateDerivedCollectionsMetrics raw).cashPerRpc ∧
    0 ≤ (calculateDerivedCollectionsMetrics raw).cashPerPromises ∧
    0 ≤ (calculateDerivedCollectionsMetrics raw).transfersPerRpc ∧
    (raw.promises ≤ raw.rpcs →
      (calculateDerivedCollectionsMetrics raw).promisesPerRpc ≤ 100) ∧
    (raw.cashPayments ≤ raw.rpcs →
      (calculateDerivedCollectionsMetrics raw).cashPerRpc ≤ 100) ∧
    (raw.cashPayments ≤ raw.promises →
      (calculateDerivedCollectionsMetrics raw).cashPerPromises ≤ 100) ∧
    (raw.transfers ≤ raw.rpcs →
      (calculateDerivedCollectionsMetrics raw).transfersPerRpc ≤ 100) := by
  have hcalls : (0 : ℚ) ≤ raw.calls := hconn.trans hcc
  simp only [calculateDerivedCollectionsMetrics]
  refine ⟨⟨?_, ?_⟩, ⟨?_, ?_⟩, ?_, ?_, ?_, ?_, fun h => ?_, fun h => ?_, fun h => ?_,
    fun h => ?_⟩
  all_goals
    first
      | exact mul_nonneg (safeDivide_nonneg (by assumption) (by assumption)) (by norm_num)
      | (have hle := @safeDivide_le_one raw.connects raw.calls hconn hcc; linarith)
      | (have hle := @safeDivide_le_one raw.rpcs raw.connects hrpc hrc; linarith)
      | (have hle := @safeDivide_le_one raw.promises raw.rpcs hprom h; linarith)
      | (have hle := @safeDivide_le_one raw.cashPayments raw.rpcs hcash h; linarith)
      | (have hle := @safeDivide_le_one raw.cashPayments raw.promises hcash h; linarith)
      | (have hle := @safeDivide_le_one raw.transfers raw.rpcs htr h; linarith)

/-- End-to-end raw aggregate from the spec's concrete scenario. -/
def specScenarioRaw : RawCollectionsCounts :=
  { accounts := 1000, calls := 5000, connects := 2000, rpcs := 800, promises := 400
    cashPayments := 200, transfers := 100, durationMinutes := 15000
    dollarPromised := 0, dollarCollected := 0 }

/-- Witness for `derivedRates_bounds` at the spec's end-to-end scenario. -/
theorem derivedRates_bounds_witness :
    (0 ≤ specScenarioRaw.connects ∧ specScenarioRaw.connects ≤ specScenarioRaw.calls ∧
      specScenarioRaw.rpcs ≤ specScenarioRaw.connects) ∧
    ((0 ≤ (calculateDerivedCollectionsMetrics specScenarioRaw).connectRate ∧
      (calculateDerivedCollectionsMetrics specScenarioRaw).connectRate ≤ 100) ∧
    (0 ≤ (calculateDerivedCollectionsMetrics specScenarioRaw).rpcRate ∧
      (calculateDerivedCollectionsMetrics specScenarioRaw).rpcRate ≤ 100) ∧
    0 ≤ (calculateDerivedCollectionsMetrics specScenarioRaw).promisesPerRpc ∧
    0 ≤ (calculateDerivedCollectionsMetrics specScenarioRaw).cashPerRpc ∧
    0 ≤ (calculateDerivedCollectionsMetrics specScenarioRaw).cashPerPromises ∧
    0 ≤ (calculateDerivedCollectionsMetrics specScenarioRaw).transfersPerRpc ∧
    (specScenarioRaw.promises ≤ specScenarioRaw.rpcs →
      (calculateDerivedCollectionsMetrics specScenarioRaw).promisesPerRpc ≤ 100) ∧
    (specScenarioRaw.cashPayments ≤ specScenarioRaw.rpcs →
      (calculateDerivedCollectionsMetrics specScenarioRaw).cashPerRpc ≤ 100) ∧
    (specScenarioRaw.cashPayments ≤ specScenarioRaw.promises →
      (calculateDerivedCollectionsMetrics specScenarioRaw).cashPerPromises ≤ 100) ∧
    (specScenarioRaw.transfers ≤ specScenarioRaw.rpcs →
      (calculateDerivedCollectionsMetrics specScenarioRaw).transfersPerRpc ≤ 100)) :=
  ⟨by norm_num [specScenarioRaw],
    derivedRates_bounds specScenarioRaw (by norm_num [specScenarioRaw])
      (by norm_num [specScenarioRaw]) (by norm_num [specScenarioRaw])
      (by norm_num [specScenarioRaw]) (by norm_num [specScenarioRaw])
      (by norm_num [specScenarioRaw]) (by norm_num [specScenarioRaw])⟩

/-! ## Change calculation and scorecard scoring (`src/lib/utils.ts`, `src/lib/clickhouse.ts`) -/

/-- Trend direction of a period-over-period change. -/
inductive MoMTrend where
  | up
  | down
  | neutral
  deriving DecidableEq, Repr

/-- Result of `calculateMoMChange`. -/
structure MoMChange where
  value : ℚ
  trend : MoMTrend
  deriving DecidableEq, Repr

/-- Change computation of `src/lib/utils.ts` (`calculateMoMChange`); the
source guard `!previous || previous === 0` is `previous = 0` on (non-`NaN`)
numbers. -/
def calculateMoMChange (current previous : ℚ) : MoMChange :=
  if previous = 0 then { value := 0, trend := MoMTrend.neutral }
  else
    let change := (current - previous) / previous * 100
    { value := change
      trend :=
        if change > 0.5 then MoMTrend.up
        else if change < -0.5 then MoMTrend.down
        else MoMTrend.neutral }

/-- Health status bucket. -/
inductive HealthStatus where
  | good
  | warning
  | critical
  | neutral
  deriving DecidableEq, Repr

/-- Health status from a percentage change (`getHealthStatus`). -/
def getHealthStatus (change : ℚ) (invertLogic : Bool) : HealthStatus :=
  let adjustedChange := if invertLogic then -change else change
  if adjustedChange ≤ -15 then HealthStatus.critical
  else if adjustedChange < -5 then HealthStatus.warning
  else if adjustedChange > 5 then HealthStatus.good
  else HealthStatus.neutral

/-- A scorecard metric (`ScorecardMetric` in `src/types/index.ts`). -/
structure ScorecardMetric where
  current : ℚ
  baseline : ℚ
  change : ℚ
  trend : MoMTrend
  status : HealthStatus
  deriving DecidableEq, Repr

/-- Scorecard metric construction (`createScorecardMetric`); the source's
`invertLogic` parameter defaults to `false` and is passed explicitly here. -/
def createScorecardMetric (current baseline : ℚ) (invertLogic : Bool) : ScorecardMetric :=
  let change := if baseline > 0 then (current - baseline) / baseline * 100 else 0
  let trend :=
    if change > 0.5 then MoMTrend.up
    else if change < -0.5 then MoMTrend.down
    else MoMTrend.neutral
  { current := current, baseline := baseline, change := change, trend := trend
    status := getHealthStatus change invertLogic }

/-- The six scorecard metrics consumed by `calculateOverallScore` (the
inline parameter record in the source). -/
structure ScorecardMetricSet where
  callVolume : ScorecardMetric
  connectRate : ScorecardMetric
  rpcRate : ScorecardMetric
  promiseRate : ScorecardMetric
  paymentSuccess : ScorecardMetric
  dollarCollected : ScorecardMetric
  deriving DecidableEq, Repr

/-- ECMAScript `Math.round` on exact rationals: round half toward positive
infinity. -/
def jsRound (x : ℚ) : ℚ := (⌊x + 1 / 2⌋ : ℤ)

/-- Weighted 0-100 overall health score (`calculateOverallScore`). -/
def calculateOverallScore (metrics : ScorecardMetricSet) : ℚ :=
  let getScore : ℚ → ℚ := fun change => 50 + max (-50) (min 50 change)
  let weightedScore :=
    0.10 * getScore metrics.callVolume.change +
    0.15 * getScore metrics.connectRate.change +
    0.20 * getScore metrics.rpcRate.change +
    0.15 * getScore metrics.promiseRate.change +
    0.20 * getScore metrics.paymentSuccess.change +
    0.20 * getScore metrics.dollarCollected.change
  jsRound (max 0 (min 100 weightedScore))

/-- Overall status bucket from the overall score (`getOverallStatusFromScore`). -/
def getOverallStatusFromScore (score : ℚ) : HealthStatus :=
  if score ≥ 55 then HealthStatus.good
  else if score ≥ 45 then HealthStatus.neutral
  else if score ≥ 35 then HealthStatus.warning
  else HealthStatus.critical

/-- C7: for a positive baseline the change computation returns
`(current − baseline)/baseline · 100`; for a zero baseline it returns value
0 with a neutral trend for any current value; the trend is `up` exactly
when the change exceeds 0.5 and `down` exactly when it is below −0.5, in
both `calculateMoMChange` and `createScorecardMetric`; concretely,
`calculateMoMChange 120 100 = ⟨20, up⟩` and `calculateMoMChange 100.4 100`
is neutral. -/
theorem calculateChange_spec :
    (∀ current previous : ℚ, 0 < previous →
      (calculateMoMChange current previous).value = (current - previous) / previous * 100 ∧
      (createScorecardMetric current previous false).change =
        (current - previous) / previous * 100) ∧
    (∀ current : ℚ,
      calculateMoMChange current 0 = { value := 0, trend := MoMTrend.neutral } ∧
      (createScorecardMetric current 0 false).change = 0 ∧
      (createScorecardMetric current 0 false).trend = MoMTrend.neutral) ∧
    (∀ current previous : ℚ,
      ((calculateMoMChange current previous).trend = MoMTrend.up ↔
        (calculateMoMChange current previous).value > 0.5) ∧
      ((calculateMoMChange current previous).trend = MoMTrend.down ↔
        (calculateMoMChange current previous).value < -0.5) ∧
      ((createScorecardMetric current previous false).trend = MoMTrend.up ↔
        (createScorecardMetric current previous false).change > 0.5) ∧
      ((createScorecardMetric current previous false).trend = MoMTrend.down ↔
        (createScorecardMetric current previous false).change < -0.5)) ∧
    calculateMoMChange 120 100 = { value := 20, trend := MoMTrend.up } ∧
    (calculateMoMChange 100.4 100).trend = MoMTrend.neutral := by
  have key : ∀ v : ℚ,
      ((if v > 0.5 then MoMTrend.up else if v < -0.5 then MoMTrend.down
        else MoMTrend.neutral) = MoMTrend.up ↔ v > 0.5) ∧
      ((if v > 0.5 then MoMTrend.up else if v < -0.5 then MoMTrend.down
        else MoMTrend.neutral) = MoMTrend.down ↔ v < -0.5) := by
    intro v
    constructor <;> split_ifs with h1 h2 <;> simp_all
    all_goals linarith
  refine ⟨fun current previous hp => ?_, fun current => ?_, fun current previous => ?_,
    ?_, ?_⟩
  · constructor
    · simp [calculateMoMChange, ne_of_gt hp]
    · simp [createScorecardMetric, hp]
  · refine ⟨by simp [calculateMoMChange], ?_, ?_⟩ <;>
      norm_num [createScorecardMetric, getHealthStatus]
  · refine ⟨?_, ?_, ?_, ?_⟩
    · by_cases hp : previous = 0
      · norm_num [calculateMoMChange, hp]
        decide
      · simp only [calculateMoMChange, if_neg hp]
        exact (key _).1
    · by_cases hp : previous = 0
      · norm_num [calculateMoMChange, hp]
        decide
      · simp only [calculateMoMChange, if_neg hp]
        exact (key _).2
    · simp only [createScorecardMetric]
      exact (key _).1
    · simp only [createScorecardMetric]
      exact (key _).2
  · norm_num [calculateMoMChange, MoMChange.mk.injEq]
  · norm_num [calculateMoMChange]

/-- Witness for `calculateChange_spec` at concrete inputs (baseline 100 and
baseline 0). -/
theorem calculateChange_spec_witness :
    ((0 : ℚ) < 100 ∧
      (calculateMoMChange 120 100).value = (120 - 100) / 100 * 100 ∧
      (createScorecardMetric 120 100 false).change = (120 - 100) / 100 * 100) ∧
    (calculateMoMChange 7 0 = { value := 0, trend := MoMTrend.neutral } ∧
      (createScorecardMetric 7 0 false).change = 0 ∧
      (createScorecardMetric 7 0 false).trend = MoMTrend.neutral) :=
  ⟨⟨by norm_num, calculateChange_spec.1 120 100 (by norm_num)⟩,
    calculateChange_spec.2.1 7⟩

/-- C6: the overall score is the weighted sum — weights callVolume 0.10,
connectRate 0.15, rpcRate 0.20, promiseRate 0.15, paymentSuccess 0.20,
dollarCollected 0.20 — of per-metric scores `50 + clamp(changePercent,
−50, +50)`, clamped to [0,100] and rounded to the nearest integer; when
every metric's current equals its positive baseline the overall score is
50; and `getOverallStatusFromScore` returns good for score ≥ 55, neutral
for ≥ 45, warning for ≥ 35, else critical, so the all-equal case is
neutral. -/
theorem calculateOverallScore_spec :
    (∀ m : ScorecardMetricSet,
      calculateOverallScore m =
        jsRound (max 0 (min 100
          (0.10 * (50 + max (-50) (min 50 m.callVolume.change)) +
            0.15 * (50 + max (-50) (min 50 m.connectRate.change)) +
            0.20 * (50 + max (-50) (min 50 m.rpcRate.change)) +
            0.15 * (50 + max (-50) (min 50 m.promiseRate.change)) +
            0.20 * (50 + max (-50) (min 50 m.paymentSuccess.change)) +
            0.20 * (50 + max (-50) (min 50 m.dollarCollected.change)))))) ∧
    (∀ b1 b2 b3 b4 b5 b6 : ℚ, 0 < b1 → 0 < b2 → 0 < b3 → 0 < b4 → 0 < b5 → 0 < b6 →
      calculateOverallScore
          { callVolume := createScorecardMetric b1 b1 false
            connectRate := createScorecardMetric b2 b2 false
            rpcRate := createScorecardMetric b3 b3 false
            promiseRate := createScorecardMetric b4 b4 false
            paymentSuccess := createScorecardMetric b5 b5 false
            dollarCollected := createScorecardMetric b6 b6 false } = 50 ∧
      getOverallStatusFromScore
          (calculateOverallScore
            { callVolume := createScorecardMetric b1 b1 false
              connectRate := createScorecardMetric b2 b2 false
              rpcRate := createScorecardMetric b3 b3 false
              promiseRate := createScorecardMetric b4 b4 false
              paymentSuccess := createScorecardMetric b5 b5 false
              dollarCollected := createScorecardMetric b6 b6 false }) =
        HealthStatus.neutral) ∧
    (∀ s : ℚ, getOverallStatusFromScore s =
      if 55 ≤ s then HealthStatus.good
      else if 45 ≤ s then HealthStatus.neutral
      else if 35 ≤ s then HealthStatus.warning
      else HealthStatus.critical) := by
  have hchange : ∀ b : ℚ, 0 < b → (createScorecardMetric b b false).change = 0 := by
    intro b hb
    simp [createScorecardMetric, hb]
  refine ⟨fun m => rfl, fun b1 b2 b3 b4 b5 b6 h1 h2 h3 h4 h5 h6 => ?_, fun s => rfl⟩
  have hmm : max (-50 : ℚ) (min 50 0) = 0 := by norm_num [min_def, max_def]
  have hscore : calculateOverallScore
      { callVolume := createScorecardMetric b1 b1 false
        connectRate := createScorecardMetric b2 b2 false
        rpcRate := createScorecardMetric b3 b3 false
        promiseRate := createScorecardMetric b4 b4 false
        paymentSuccess := createScorecardMetric b5 b5 false
        dollarCollected := createScorecardMetric b6 b6 false } = 50 := by
    simp only [calculateOverallScore, hchange b1 h1, hchange b2 h2, hchange b3 h3,
      hchange b4 h4, hchange b5 h5, hchange b6 h6, hmm]
    have harg : max (0 : ℚ) (min 100
        (0.10 * ((50 : ℚ) + 0) + 0.15 * (50 + 0) + 0.20 * (50 + 0) +
          0.15 * (50 + 0) + 0.20 * (50 + 0) + 0.20 * (50 + 0))) = 50 := by
      norm_num [min_def, max_def]
    rw [harg]
    unfold jsRound
    have hfl : ⌊(50 : ℚ) + 1 / 2⌋ = (50 : ℤ) := by
      rw [Int.floor_eq_iff]
      constructor <;> norm_num
    rw [hfl]
    norm_num
  exact ⟨hscore, by rw [hscore]; norm_num [getOverallStatusFromScore]⟩

/-- Witness for `calculateOverallScore_spec` with all six baselines 10. -/
theorem calculateOverallScore_spec_witness :
    ((0 : ℚ) < 10) ∧
    (calculateOverallScore
        { callVolume := createScorecardMetric 10 10 false
          connectRate := createScorecardMetric 10 10 false
          rpcRate := createScorecardMetric 10 10 false
          promiseRate := createScorecardMetric 10 10 false
          paymentSuccess := createScorecardMetric 10 10 false
          dollarCollected := createScorecardMetric 10 10 false } = 50 ∧
      getOverallStatusFromScore
          (calculateOverallScore
            { callVolume := createScorecardMetric 10 10 false
              connectRate := createScorecardMetric 10 10 false
              rpcRate := createScorecardMetric 10 10 false
              promiseRate := createScorecardMetric 10 10 false
              paymentSuccess := createScorecardMetric 10 10 false
              dollarCollected := createScorecardMetric 10 10 false }) =
        HealthStatus.neutral) :=
  ⟨by norm_num,
    calculateOverallScore_spec.2.1 10 10 10 10 10 10 (by norm_num) (by norm_num)
      (by norm_num) (by norm_num) (by norm_num) (by norm_num)⟩

/-! ## Query-row parsing (`parseKPIResults` in `src/lib/clickhouse.ts`) -/

/-- One grouped query result row (`RawKPIRow`); string count fields are
embedded as their parsed numeric value, `none` when the numeric parse
fails, so the source's `parseInt(x) || 0` / `parseFloat(x) || 0` becomes
`Option.getD 0`. -/
structure RawKPIRow where
  model : Option String
  direction : Option String
  accounts : Option ℚ
  calls : Option ℚ
  connects : Option ℚ
  rpcs : Option ℚ
  promises : Option ℚ
  cash_payments : Option ℚ
  transfers : Option ℚ
  duration_minutes : Option ℚ
  completed_verifications : Option ℚ
  dollar_promised : Option ℚ
  dollar_collected : Option ℚ
  payment_attempts : Option ℚ
  payment_successful : Option ℚ
  payment_declined : Option ℚ
  payment_api_failed : Option ℚ
  deriving DecidableEq, Repr

/-- The `parseInt(x) || 0` fallback: a failed parse contributes 0. -/
def parseNumOr0 (v : Option ℚ) : ℚ := v.getD 0

/-- JavaScript `toLowerCase`, implemented over the character list (it agrees
with `String.toLower` and is kernel-reducible). -/
def jsToLowerCase (s : String) : String := ⟨s.data.map Char.toLower⟩

/-- The four mutable raw accumulators of `parseKPIResults`. -/
structure KPIAccumulators where
  collectionsRaw : RawCollectionsCounts
  inboundRaw : RawCollectionsCounts
  welcomeRaw : RawWelcomeCounts
  verificationRaw : RawWelcomeCounts
  deriving DecidableEq, Repr

/-- Zero-valued collections accumulator. -/
def zeroCollectionsCounts : RawCollectionsCounts :=
  { accounts := 0, calls := 0, connects := 0, rpcs := 0, promises := 0
    cashPayments := 0, transfers := 0, durationMinutes := 0
    dollarPromised := 0, dollarCollected := 0 }

/-- Zero-valued welcome/verification accumulator. -/
def zeroWelcomeCounts : RawWelcomeCounts :=
  { accounts := 0, calls := 0, connects := 0, rpcs := 0, eligible := 0, completed := 0 }

/-- Initial accumulators of `parseKPIResults`. -/
def initialKPIAccumulators : KPIAccumulators :=
  { collectionsRaw := zeroCollectionsCounts
    inboundRaw := zeroCollectionsCounts
    welcomeRaw := zeroWelcomeCounts
    verificationRaw := zeroWelcomeCounts }

/-- Loop body of `parseKPIResults`: lowercase the row's model/direction
(missing values default to the empty string), parse the count fields, and
accumulate into the matching category; rows whose model matches no branch
are dropped. -/
def accumulateKPIRow (acc : KPIAccumulators) (row : RawKPIRow) : KPIAccumulators :=
  let model := (row.model.map jsToLowerCase).getD ""
  let direction := (row.direction.map jsToLowerCase).getD ""
  let accounts := parseNumOr0 row.accounts
  let calls := parseNumOr0 row.calls
  let connects := parseNumOr0 row.connects
  let rpcs := parseNumOr0 row.rpcs
  let promises := parseNumOr0 row.promises
  let cashPayments := parseNumOr0 row.cash_payments
  let transfers := parseNumOr0 row.transfers
  let durationMinutes := parseNumOr0 row.duration_minutes
  let completedVerifications := parseNumOr0 row.completed_verifications
  let dollarPromised := parseNumOr0 row.dollar_promised
  let dollarCollected := parseNumOr0 row.dollar_collected
  if model = "collections" then
    if direction = "inbound" then
      { acc with inboundRaw :=
        { accounts := acc.inboundRaw.accounts + accounts
          calls := acc.inboundRaw.calls + calls
          connects := acc.inboundRaw.connects + connects
          rpcs := acc.inboundRaw.rpcs + rpcs
          promises := acc.inboundRaw.promises + promises
          cashPayments := acc.inboundRaw.cashPayments + cashPayments
          transfers := acc.inboundRaw.transfers + transfers
          durationMinutes := acc.inboundRaw.durationMinutes + durationMinutes
          dollarPromised := acc.inboundRaw.dollarPromised + dollarPromised
          dollarCollected := acc.inboundRaw.dollarCollected + dollarCollected } }
    else
      { acc with collectionsRaw :=
        { accounts := acc.collectionsRaw.accounts + accounts
          calls := acc.collectionsRaw.calls + calls
          connects := acc.collectionsRaw.connects + connects
          rpcs := acc.collectionsRaw.rpcs + rpcs
          promises := acc.collectionsRaw.promises + promises
          cashPayments := acc.collectionsRaw.cashPayments + cashPayments
          transfers := acc.collectionsRaw.transfers + transfers
          durationMinutes := acc.collectionsRaw.durationMinutes + durationMinutes
          dollarPromised := acc.collectionsRaw.dollarPromised + dollarPromised
          dollarCollected := acc.collectionsRaw.dollarCollected + dollarCollected } }
  else if model = "welcome" then
    { acc with welcomeRaw :=
      { accounts := acc.welcomeRaw.accounts + accounts
        calls := acc.welcomeRaw.calls + calls
        connects := acc.welcomeRaw.connects + connects
        rpcs := acc.welcomeRaw.rpcs + rpcs
        eligible := acc.welcomeRaw.eligible + rpcs
        completed := acc.welcomeRaw.completed + completedVerifications } }
  else if model = "verification" then
    { acc with verificationRaw :=
      { accounts := acc.verificationRaw.accounts + accounts
        calls := acc.verificationRaw.calls + calls
        connects := acc.verificationRaw.connects + connects
        rpcs := acc.verificationRaw.rpcs + rpcs
        eligible := acc.verificationRaw.eligible + rpcs
        completed := acc.verificationRaw.completed + completedVerifications } }
  else if model = "inbound" then
    { acc with inboundRaw :=
      { accounts := acc.inboundRaw.accounts + accounts
        calls := acc.inboundRaw.calls + calls
        connects := acc.inboundRaw.connects + connects
        rpcs := acc.inboundRaw.rpcs + rpcs
        promises := acc.inboundRaw.promises + promises
        cashPayments := acc.inboundRaw.cashPayments + cashPayments
        transfers := acc.inboundRaw.transfers + transfers
        durationMinutes := acc.inboundRaw.durationMinutes + durationMinutes
        dollarPromised := acc.inboundRaw.dollarPromised + dollarPromised
        dollarCollected := acc.inboundRaw.dollarCollected + dollarCollected } }
  else acc

/-- Parse query rows into a `PeriodKPIs` (`parseKPIResults`). -/
def parseKPIResults (rows : List RawKPIRow) : PeriodKPIs :=
  let acc := rows.foldl accumulateKPIRow initialKPIAccumulators
  { collections := calculateDerivedCollectionsMetrics acc.collectionsRaw
    inbound := calculateDerivedCollectionsMetrics acc.inboundRaw
    welcome := calculateDerivedWelcomeMetrics acc.welcomeRaw
    verification := calculateDerivedWelcomeMetrics acc.verificationRaw }

/-- A row whose lowercased model matches no category leaves the
accumulators unchanged. -/
theorem accumulateKPIRow_dropped (acc : KPIAccumulators) (row : RawKPIRow)
    (h : (row.model.map jsToLowerCase).getD "" ∉
      (["collections", "welcome", "verification", "inbound"] : List String)) :
    accumulateKPIRow acc row = acc := by
  simp only [List.mem_cons, List.mem_singleton, not_or, List.not_mem_nil,
    not_false_iff, and_true] at h
  obtain ⟨h1, h2, h3, h4⟩ := h
  simp [accumulateKPIRow, h1, h2, h3, h4]

/-- C10: a row whose lowercased model is not one of collections, welcome,
verification or inbound contributes nothing to any metric category (it is
silently dropped, at the loop step and in `parseKPIResults`); a collections
row is routed to the inbound bucket exactly when its lowercased direction
is `"inbound"`, and otherwise (any other, empty, or missing direction)
accumulates as outbound collections; and a count field whose string value
fails numeric parsing contributes 0. -/
theorem parseKPIResults_routing :
    (∀ (acc : KPIAccumulators) (row : RawKPIRow),
      (row.model.map jsToLowerCase).getD "" ∉
          (["collections", "welcome", "verification", "inbound"] : List String) →
      accumulateKPIRow acc row = acc) ∧
    (∀ (rows1 rows2 : List RawKPIRow) (row : RawKPIRow),
      (row.model.map jsToLowerCase).getD "" ∉
          (["collections", "welcome", "verification", "inbound"] : List String) →
      parseKPIResults (rows1 ++ row :: rows2) = parseKPIResults (rows1 ++ rows2)) ∧
    (∀ (acc : KPIAccumulators) (row : RawKPIRow),
      (row.model.map jsToLowerCase).getD "" = "collections" →
      ((row.direction.map jsToLowerCase).getD "" = "inbound" →
        accumulateKPIRow acc row =
          { acc with inboundRaw :=
            { accounts := acc.inboundRaw.accounts + parseNumOr0 row.accounts
              calls := acc.inboundRaw.calls + parseNumOr0 row.calls
              connects := acc.inboundRaw.connects + parseNumOr0 row.connects
              rpcs := acc.inboundRaw.rpcs + parseNumOr0 row.rpcs
              promises := acc.inboundRaw.promises + parseNumOr0 row.promises
              cashPayments := acc.inboundRaw.cashPayments + parseNumOr0 row.cash_payments
              transfers := acc.inboundRaw.transfers + parseNumOr0 row.transfers
              durationMinutes :=
                acc.inboundRaw.durationMinutes + parseNumOr0 row.duration_minutes
              dollarPromised :=
                acc.inboundRaw.dollarPromised + parseNumOr0 row.dollar_promised
              dollarCollected :=
                acc.inboundRaw.dollarCollected + parseNumOr0 row.dollar_collected } }) ∧
      ((row.direction.map jsToLowerCase).getD "" ≠ "inbound" →
        accumulateKPIRow acc row =
          { acc with collectionsRaw :=
            { accounts := acc.collectionsRaw.accounts + parseNumOr0 row.accounts
              calls := acc.collectionsRaw.calls + parseNumOr0 row.calls
              connects := acc.collectionsRaw.connects + parseNumOr0 row.connects
              rpcs := acc.collectionsRaw.rpcs + parseNumOr0 row.rpcs
              promises := acc.collectionsRaw.promises + parseNumOr0 row.promises
              cashPayments :=
                acc.collectionsRaw.cashPayments + parseNumOr0 row.cash_payments
              transfers := acc.collectionsRaw.transfers + parseNumOr0 row.transfers
              durationMinutes :=
                acc.collectionsRaw.durationMinutes + parseNumOr0 row.duration_minutes
              dollarPromised :=
                acc.collectionsRaw.dollarPromised + parseNumOr0 row.dollar_promised
              dollarCollected :=
                acc.collectionsRaw.dollarCollected + parseNumOr0 row.dollar_collected } })) ∧
    (∀ v : Option ℚ, v = none → parseNumOr0 v = 0) ∧
    parseNumOr0 none = 0 := by
  refine ⟨accumulateKPIRow_dropped, fun rows1 rows2 row h => ?_,
    fun acc row hm => ⟨fun hd => ?_, fun hd => ?_⟩, fun v hv => by rw [hv]; rfl, rfl⟩
  · unfold parseKPIResults
    rw [List.foldl_append, List.foldl_append, List.foldl_cons,
      accumulateKPIRow_dropped _ row h]
  · simp [accumulateKPIRow, hm, hd]
  · simp [accumulateKPIRow, hm, hd]

/-- Concrete row with an unrecognised model. -/
def paymentModelRow : RawKPIRow :=
  { model := some "Payment", direction := some "outbound"
    accounts := some 1, calls := some 2, connects := some 1, rpcs := some 1
    promises := some 0, cash_payments := some 0, transfers := some 0
    duration_minutes := some 5, completed_verifications := some 0
    dollar_promised := some 0, dollar_collected := some 0
    payment_attempts := some 0, payment_successful := some 0
    payment_declined := some 0, payment_api_failed := some 0 }

/-- Concrete collections row with direction `Inbound` and one unparseable
count field (`connects = none`). -/
def inboundCollectionsRow : RawKPIRow :=
  { model := some "Collections", direction := some "Inbound"
    accounts := some 2, calls := some 3, connects := none, rpcs := some 1
    promises := some 1, cash_payments := some 0, transfers := some 0
    duration_minutes := some 4, completed_verifications := some 0
    dollar_promised := some 10, dollar_collected := some 5
    payment_attempts := some 0, payment_successful := some 0
    payment_declined := some 0, payment_api_failed := some 0 }

/-- Witness for `parseKPIResults_routing` at concrete rows. -/
theorem parseKPIResults_routing_witness :
    ((paymentModelRow.model.map jsToLowerCase).getD "" ∉
        (["collections", "welcome", "verification", "inbound"] : List String) ∧
      accumulateKPIRow initialKPIAccumulators paymentModelRow = initialKPIAccumulators) ∧
    ((inboundCollectionsRow.model.map jsToLowerCase).getD "" = "collections" ∧
      (inboundCollectionsRow.direction.map jsToLowerCase).getD "" = "inbound" ∧
      accumulateKPIRow initialKPIAccumulators inboundCollectionsRow =
        { initialKPIAccumulators with inboundRaw :=
          { accounts := initialKPIAccumulators.inboundRaw.accounts +
              parseNumOr0 inboundCollectionsRow.accounts
            calls := initialKPIAccumulators.inboundRaw.calls +
              parseNumOr0 inboundCollectionsRow.calls
            connects := initialKPIAccumulators.inboundRaw.connects +
              parseNumOr0 inboundCollectionsRow.connects
            rpcs := initialKPIAccumulators.inboundRaw.rpcs +
              parseNumOr0 inboundCollectionsRow.rpcs
            promises := initialKPIAccumulators.inboundRaw.promises +
              parseNumOr0 inboundCollectionsRow.promises
            cashPayments := initialKPIAccumulators.inboundRaw.cashPayments +
              parseNumOr0 inboundCollectionsRow.cash_payments
            transfers := initialKPIAccumulators.inboundRaw.transfers +
              parseNumOr0 inboundCollectionsRow.transfers
            durationMinutes := initialKPIAccumulators.inboundRaw.durationMinutes +
              parseNumOr0 inboundCollectionsRow.duration_minutes
            dollarPromised := initialKPIAccumulators.inboundRaw.dollarPromised +
              parseNumOr0 inboundCollectionsRow.dollar_promised
            dollarCollected := initialKPIAccumulators.inboundRaw.dollarCollected +
              parseNumOr0 inboundCollectionsRow.dollar_collected } }) ∧
    parseNumOr0 inboundCollectionsRow.connects = 0 :=
  ⟨⟨by decide, parseKPIResults_routing.1 initialKPIAccumulators paymentModelRow (by decide)⟩,
    ⟨by decide, by decide,
      (parseKPIResults_routing.2.2.1 initialKPIAccumulators inboundCollectionsRow
        (by decide)).1 (by decide)⟩,
    parseKPIResults_routing.2.2.2.1 inboundCollectionsRow.connects rfl⟩

/-! ## Fetch orchestrator failure policy (C8) -/

/-- Per-task fetch with the source's `try/catch`: a failed task contributes
the all-zero KPI record (`fetchClientData` in
`fetchConsolidatedKPIsWithDateRange`, and the identical catch in
`fetchAllClientsScorecardData`'s batched query loop). -/
def fetchClientDataResult (r : Except String PeriodKPIs) : PeriodKPIs :=
  match r with
  | Except.ok kpis => kpis
  | Except.error _ => emptyPeriodKPIs

/-- One period's batch accumulation loop of the orchestrator: fold the
per-task results into a running total with the reducer, then recalculate
the derived metrics (batching in groups of 5 or 30 does not change the
sequential accumulation order). -/
def consolidatedPeriodTotal (results : List (Except String PeriodKPIs)) : PeriodKPIs :=
  recalculateDerivedMetrics
    (results.foldl (fun total r => sumPeriodKPIs total (fetchClientDataResult r))
      emptyPeriodKPIs)

/-- Summing two all-zero KPI records yields the all-zero record. -/
theorem sumPeriodKPIs_empty :
    sumPeriodKPIs emptyPeriodKPIs emptyPeriodKPIs = emptyPeriodKPIs := by
  norm_num [sumPeriodKPIs, emptyPeriodKPIs, emptyCollectionsMetrics,
    emptyWelcomeVerificationMetrics, PeriodKPIs.mk.injEq, CollectionsMetrics.mk.injEq,
    WelcomeVerificationMetrics.mk.injEq]

/-- Recalculating the all-zero KPI record yields the all-zero record. -/
theorem recalculateDerivedMetrics_empty :
    recalculateDerivedMetrics emptyPeriodKPIs = emptyPeriodKPIs := by
  norm_num [recalculateDerivedMetrics, calculateDerivedCollectionsMetrics,
    calculateDerivedWelcomeMetrics, safeDivide, emptyPeriodKPIs, emptyCollectionsMetrics,
    emptyWelcomeVerificationMetrics, PeriodKPIs.mk.injEq, CollectionsMetrics.mk.injEq,
    WelcomeVerificationMetrics.mk.injEq]

/-- Folding a list of all-failed task results leaves the total all-zero. -/
theorem foldl_allFailed (rs : List (Except String PeriodKPIs))
    (h : ∀ r ∈ rs, ∃ e, r = Except.error e) :
    rs.foldl (fun total r => sumPeriodKPIs total (fetchClientDataResult r)) emptyPeriodKPIs
      = emptyPeriodKPIs := by
  induction rs with
  | nil => rfl
  | cons r rs ih =>
    obtain ⟨e, he⟩ := h r (List.mem_cons_self r rs)
    rw [List.foldl_cons, he,
      show fetchClientDataResult (Except.error e) = emptyPeriodKPIs from rfl,
      sumPeriodKPIs_empty]
    exact ih fun r' hr' => h r' (List.mem_cons_of_mem r hr')

/-- C8 amended: a failed per-task fetch contributes the all-zero KPI record
and never aborts the batch (replacing a failed task by an explicit all-zero
success leaves the combined total unchanged); but when every task in a
batch fails the orchestrator does not propagate an error — it returns the
same all-zero result set a period with no data would produce. -/
theorem consolidatedTotal_failure_policy :
    (∀ e : String, fetchClientDataResult (Except.error e) = emptyPeriodKPIs) ∧
    (∀ (e : String) (rs1 rs2 : List (Except String PeriodKPIs)),
      consolidatedPeriodTotal (rs1 ++ Except.error e :: rs2) =
        consolidatedPeriodTotal (rs1 ++ Except.ok emptyPeriodKPIs :: rs2)) ∧
    (∀ rs : List (Except String PeriodKPIs), (∀ r ∈ rs, ∃ e, r = Except.error e) →
      consolidatedPeriodTotal rs = emptyPeriodKPIs) := by
  refine ⟨fun e => rfl, fun e rs1 rs2 => ?_, fun rs h => ?_⟩
  · unfold consolidatedPeriodTotal
    rw [List.foldl_append, List.foldl_append, List.foldl_cons, List.foldl_cons]
    rfl
  · unfold consolidatedPeriodTotal
    rw [foldl_allFailed rs h]
    exact recalculateDerivedMetrics_empty

/-- Witness for `consolidatedTotal_failure_policy` on a concrete all-failed
batch. -/
theorem consolidatedTotal_failure_policy_witness :
    consolidatedPeriodTotal [Except.error "timeout"] = emptyPeriodKPIs :=
  consolidatedTotal_failure_policy.2.2 [Except.error "timeout"]
    (fun r hr => by
      simp only [List.mem_singleton] at hr
      exact ⟨"timeout", hr⟩)

/-- C8 counterexample: a batch in which every per-task fetch failed is
indistinguishable from a batch of tasks that all succeeded with zero data —
the orchestrator returns the plausible all-zero result set instead of
propagating an error (the failure never leaves the accumulation loop). -/
theorem consolidatedTotal_allFailed_counterexample :
    consolidatedPeriodTotal [Except.error "store down", Except.error "store down"] =
      consolidatedPeriodTotal [Except.ok emptyPeriodKPIs, Except.ok emptyPeriodKPIs] ∧
    consolidatedPeriodTotal [Except.error "store down", Except.error "store down"] =
      emptyPeriodKPIs := by
  refine ⟨rfl, ?_⟩
  unfold consolidatedPeriodTotal
  rw [List.foldl_cons, List.foldl_cons, List.foldl_nil,
    show fetchClientDataResult (Except.error "store down") = emptyPeriodKPIs from rfl,
    sumPeriodKPIs_empty, sumPeriodKPIs_empty]
  exact recalculateDerivedMetrics_empty

/-! ## Calendar model (`src/lib/utils.ts`)

JavaScript `Date` at day granularity: a date is its day number (days since
1970-01-01, proleptic Gregorian).  `jsMakeDay` is the ECMAScript `MakeDay`
operation: an out-of-range month is folded into the year and an
out-of-range day of month rolls over into adjacent months — this is
exactly the overflow behaviour of `setMonth`/`setDate`/`new Date(y, m, d)`
that the date-range calculator relies on. -/

/-- Civil date to day number (Gregorian, floor-division based). -/
def daysFromCivil (y m d : ℤ) : ℤ :=
  let yAdj := if m ≤ 2 then y - 1 else y
  let era := yAdj.fdiv 400
  let yoe := yAdj - era * 400
  let doy := (153 * (m + (if m > 2 then -3 else 9)) + 2).fdiv 5 + d - 1
  let doe := yoe * 365 + yoe.fdiv 4 - yoe.fdiv 100 + doy
  era * 146097 + doe - 719468

/-- Day number to civil date `(year, month 1-12, day)`. -/
def civilFromDays (z : ℤ) : ℤ × ℤ × ℤ :=
  let z' := z + 719468
  let era := z'.fdiv 146097
  let doe := z' - era * 146097
  let yoe := (doe - doe.fdiv 1460 + doe.fdiv 36524 - doe.fdiv 146096).fdiv 365
  let y := yoe + era * 400
  let doy := doe - (365 * yoe + yoe.fdiv 4 - yoe.fdiv 100)
  let mp := (5 * doy + 2).fdiv 153
  let d := doy - (153 * mp + 2).fdiv 5 + 1
  let m := mp + (if mp < 10 then 3 else -9)
  (if m ≤ 2 then y + 1 else y, m, d)

/-- A JavaScript `Date` at day granularity: its day number. -/
abbrev JSDate := ℤ

/-- ECMAScript `MakeDay`: year, 0-based month (any integer), day of month
(any integer), with the standard normalisation. -/
def jsMakeDay (y m d : ℤ) : JSDate :=
  daysFromCivil (y + m.fdiv 12) (m.emod 12 + 1) d

/-- The `new Date(year, monthIndex, day)` constructor. -/
def jsNewDate (y m d : ℤ) : JSDate := jsMakeDay y m d

/-- `Date.prototype.getFullYear`. -/
def jsGetFullYear (t : JSDate) : ℤ := (civilFromDays t).1

/-- `Date.prototype.getMonth` (0-based). -/
def jsGetMonth (t : JSDate) : ℤ := (civilFromDays t).2.1 - 1

/-- `Date.prototype.getDate` (day of month). -/
def jsGetDate (t : JSDate) : ℤ := (civilFromDays t).2.2

/-- `Date.prototype.getDay` (0 = Sunday; 1970-01-01 was a Thursday). -/
def jsGetDay (t : JSDate) : ℤ := (t + 4).emod 7

/-- `Date.prototype.setMonth` (keeps the day of month, rolling over when it
does not exist in the target month). -/
def jsSetMonth (t : JSDate) (m : ℤ) : JSDate := jsMakeDay (jsGetFullYear t) m (jsGetDate t)

/-- `Date.prototype.setDate` (sets the day of month, rolling over when out
of range; day 0 is the last day of the previous month). -/
def jsSetDate (t : JSDate) (d : ℤ) : JSDate := jsMakeDay (jsGetFullYear t) (jsGetMonth t) d

/-- A date range; the source's `end` field is named `endDate` because `end`
is a Lean keyword. -/
structure DateRange where
  start : JSDate
  endDate : JSDate
  label : String
  deriving DecidableEq, Repr

/-- Month abbreviations used by the formatting helpers. -/
def monthNames : List String :=
  ["Jan", "Feb", "Mar", "Apr", "May", "Jun", "Jul", "Aug", "Sep", "Oct", "Nov", "Dec"]

/-- The `year.toString().slice(-2)` idiom. -/
def lastTwoDigits (y : ℤ) : String :=
  let s := toString y
  s.drop (s.length - 2)

/-- `formatMonthYear` (e.g. `"Jan-25"`); UTC and local fields agree at day
granularity. -/
def formatMonthYear (t : JSDate) : String :=
  monthNames.getD (jsGetMonth t).toNat "" ++ "-" ++ lastTwoDigits (jsGetFullYear t)

/-- `formatDateRange` (e.g. `"Jan 13-19, 2025"`). -/
def formatDateRange (startDate stopDate : JSDate) : String :=
  if jsGetMonth startDate = jsGetMonth stopDate ∧
      jsGetFullYear startDate = jsGetFullYear stopDate then
    monthNames.getD (jsGetMonth startDate).toNat "" ++ " " ++
      toString (jsGetDate startDate) ++ "-" ++ toString (jsGetDate stopDate) ++ ", " ++
      toString (jsGetFullYear startDate)
  else if jsGetFullYear startDate = jsGetFullYear stopDate then
    monthNames.getD (jsGetMonth startDate).toNat "" ++ " " ++
      toString (jsGetDate startDate) ++ " - " ++
      monthNames.getD (jsGetMonth stopDate).toNat "" ++ " " ++
      toString (jsGetDate stopDate) ++ ", " ++ toString (jsGetFullYear startDate)
  else
    monthNames.getD (jsGetMonth startDate).toNat "" ++ " " ++
      toString (jsGetDate startDate) ++ ", " ++ toString (jsGetFullYear startDate) ++
      " - " ++ monthNames.getD (jsGetMonth stopDate).toNat "" ++ " " ++
      toString (jsGetDate stopDate) ++ ", " ++ toString (jsGetFullYear stopDate)

/-- `getWeekRange`: the Sunday-Saturday week containing the date. -/
def getWeekRange (date : JSDate) : DateRange :=
  let day := jsGetDay date
  let sunday := jsSetDate date (jsGetDate date - day)
  let saturday := jsSetDate sunday (jsGetDate sunday + 6)
  { start := sunday, endDate := saturday, label := formatDateRange sunday saturday }

/-- `getWeekToDateRange`: Sunday of the current week through the date. -/
def getWeekToDateRange (date : JSDate) : DateRange :=
  let day := jsGetDay date
  let sunday := jsSetDate date (jsGetDate date - day)
  { start := sunday, endDate := date, label := formatDateRange sunday date }

/-- `getMonthToDateRange`: first of the month through the date. -/
def getMonthToDateRange (date : JSDate) : DateRange :=
  let monthStart := jsNewDate (jsGetFullYear date) (jsGetMonth date) 1
  { start := monthStart, endDate := date, label := formatDateRange monthStart date }

/-- `getPreviousWeekRange`: the Sunday-Saturday week before the current one. -/
def getPreviousWeekRange (date : JSDate) : DateRange :=
  let currentWeek := getWeekRange date
  let prevSunday := jsSetDate currentWeek.start (jsGetDate currentWeek.start - 7)
  let prevSaturday := jsSetDate prevSunday (jsGetDate prevSunday + 6)
  { start := prevSunday, endDate := prevSaturday
    label := formatDateRange prevSunday prevSaturday }

/-- `getSamePeriodLastMonth`: subtract one month from both bounds via
`setMonth(getMonth() - 1)`, then clamp the end when its day-of-month
exceeds the day count of the (rolled) start's month. -/
def getSamePeriodLastMonth (range : DateRange) : DateRange :=
  let startPrevMonth := jsSetMonth range.start (jsGetMonth range.start - 1)
  let endPrevMonth := jsSetMonth range.endDate (jsGetMonth range.endDate - 1)
  let daysInPrevMonth :=
    jsGetDate (jsNewDate (jsGetFullYear startPrevMonth) (jsGetMonth startPrevMonth + 1) 0)
  let endClamped :=
    if jsGetDate endPrevMonth > daysInPrevMonth then jsSetDate endPrevMonth daysInPrevMonth
    else endPrevMonth
  { start := startPrevMonth, endDate := endClamped
    label := formatDateRange startPrevMonth endClamped }

/-- `getWeeklyAverageRange`: the `weeks` whole weeks before the current
week's Sunday. -/
def getWeeklyAverageRange (date : JSDate) (weeks : ℤ) : DateRange :=
  let currentWeek := getWeekRange date
  let startDate := jsSetDate currentWeek.start (jsGetDate currentWeek.start - weeks * 7)
  let endDate := jsSetDate currentWeek.start (jsGetDate currentWeek.start - 1)
  { start := startDate, endDate := endDate
    label := "Past " ++ toString weeks ++ " weeks avg" }

/-- `getMonthRange`: the full month containing the date (`new Date(y, m+1, 0)`
is the month's last day). -/
def getMonthRange (date : JSDate) : DateRange :=
  let monthStart := jsNewDate (jsGetFullYear date) (jsGetMonth date) 1
  let monthEnd := jsNewDate (jsGetFullYear date) (jsGetMonth date + 1) 0
  { start := monthStart, endDate := monthEnd, label := formatMonthYear date }

/-- `getPreviousMonthRange`. -/
def getPreviousMonthRange (date : JSDate) : DateRange :=
  let prevMonth := jsNewDate (jsGetFullYear date) (jsGetMonth date - 1) 1
  getMonthRange prevMonth

/-- `getRolling7DayRange`: the 7 days ending on the date. -/
def getRolling7DayRange (date : JSDate) : DateRange :=
  let startDate := jsSetDate date (jsGetDate date - 6)
  { start := startDate, endDate := date, label := formatDateRange startDate date }

/-- A period configuration (`PeriodConfig`). -/
structure PeriodConfig where
  periodType : String
  currentRange : DateRange
  comparisonRange : DateRange
  comparisonLabel : String
  deriving DecidableEq, Repr

/-- The month-over-month branch of `getPeriodConfig`; the source's
`default` branch re-enters `getPeriodConfig('mom', referenceDate)`, which
is exactly this configuration. -/
def momPeriodConfig (referenceDate : JSDate) : PeriodConfig :=
  let currentRange := getMonthRange referenceDate
  let comparisonRange := getPreviousMonthRange referenceDate
  { periodType := "mom", currentRange := currentRange
    comparisonRange := comparisonRange
    comparisonLabel := "vs " ++ comparisonRange.label }

/-- `getPeriodConfig`; the comparison type is a `String` because the HTTP
route casts the raw query-string value, so at runtime any string can reach
this switch, and its `default` branch falls back to the `'mom'` case. -/
def getPeriodConfig (comparisonType : String) (referenceDate : JSDate) : PeriodConfig :=
  if comparisonType = "mom" then momPeriodConfig referenceDate
  else if comparisonType = "wow" then
    { periodType := "wow", currentRange := getWeekRange referenceDate
      comparisonRange := getPreviousWeekRange referenceDate
      comparisonLabel := "vs last week" }
  else if comparisonType = "mtd" then
    let currentRange := getMonthToDateRange referenceDate
    let comparisonRange := getSamePeriodLastMonth currentRange
    { periodType := "mtd", currentRange := currentRange
      comparisonRange := comparisonRange
      comparisonLabel := "vs " ++ comparisonRange.label }
  else if comparisonType = "wtd" then
    { periodType := "wtd", currentRange := getWeekToDateRange referenceDate
      comparisonRange := getWeeklyAverageRange referenceDate 4
      comparisonLabel := "vs 4-week avg" }
  else momPeriodConfig referenceDate

/-- The range Jan 1-31, 2025 (label as produced by the source). -/
def janRange2025 : DateRange :=
  { start := jsNewDate 2025 0 1, endDate := jsNewDate 2025 0 31
    label := "Jan 1-31, 2025" }

/-- The range Mar 1-31, 2025. -/
def marRange2025 : DateRange :=
  { start := jsNewDate 2025 2 1, endDate := jsNewDate 2025 2 31
    label := "Mar 1-31, 2025" }

/-- C4: `getSamePeriodLastMonth` maps Jan 1-31, 2025 to Dec 1-31, 2024 as
the claim states, but the claimed clamping is broken in general: for
Mar 1-31, 2025 the `setMonth` call itself rolls Feb 31 over to Mar 3, 2025,
the clamp compares the rolled-over day 3 against Feb's 28 days and never
fires, and the function returns Feb 1 - Mar 3, 2025 instead of the
clamped Feb 1 - Feb 28, 2025 that the function's own comment, the spec and
the unit-test comment describe. -/
theorem getSamePeriodLastMonth_rollover_bug :
    (getSamePeriodLastMonth janRange2025).start = jsNewDate 2024 11 1 ∧
    (getSamePeriodLastMonth janRange2025).endDate = jsNewDate 2024 11 31 ∧
    (getSamePeriodLastMonth marRange2025).start = jsNewDate 2025 1 1 ∧
    jsGetFullYear (getSamePeriodLastMonth marRange2025).endDate = 2025 ∧
    jsGetMonth (getSamePeriodLastMonth marRange2025).endDate = 2 ∧
    jsGetDate (getSamePeriodLastMonth marRange2025).endDate = 3 ∧
    (getSamePeriodLastMonth marRange2025).endDate ≠ jsNewDate 2025 1 28 := by
  refine ⟨?_, ?_, ?_, ?_, ?_, ?_, ?_⟩ <;> decide

/-- C9 counterexample: `getPeriodConfig` applied to the unknown comparison
type `"quarterly"` silently produces the full month-over-month period
configuration instead of failing — no error value exists in its return
type and no validation precedes it in the route. -/
theorem getPeriodConfig_unknown_counterexample :
    getPeriodConfig "quarterly" (jsNewDate 2025 0 15) =
      getPeriodConfig "mom" (jsNewDate 2025 0 15) ∧
    (getPeriodConfig "quarterly" (jsNewDate 2025 0 15)).periodType = "mom" := by
  exact ⟨rfl, rfl⟩

/-- C9 amended: every comparison type outside the four known tags falls
back silently to the month-over-month configuration (the source `default`
branch re-enters with `'mom'`); no fail-fast validation of the comparison
type happens in `getPeriodConfig`. -/
theorem getPeriodConfig_unknown_fallback (t : String) (ref : JSDate)
    (h : t ∉ (["mom", "wow", "mtd", "wtd"] : List String)) :
    getPeriodConfig t ref = getPeriodConfig "mom" ref ∧
    (getPeriodConfig t ref).periodType = "mom" := by
  simp only [List.mem_cons, List.mem_singleton, not_or, List.not_mem_nil,
    not_false_iff, and_true] at h
  obtain ⟨h1, h2, h3, h4⟩ := h
  constructor <;> simp [getPeriodConfig, h1, h2, h3, h4, momPeriodConfig]

/-- Witness for `getPeriodConfig_unknown_fallback` at `"quarterly"`. -/
theorem getPeriodConfig_unknown_fallback_witness :
    ("quarterly" ∉ (["mom", "wow", "mtd", "wtd"] : List String)) ∧
    (getPeriodConfig "quarterly" (jsNewDate 2025 5 10) =
        getPeriodConfig "mom" (jsNewDate 2025 5 10) ∧
      (getPeriodConfig "quarterly" (jsNewDate 2025 5 10)).periodType = "mom") :=
  ⟨by decide, getPeriodConfig_unknown_fallback "quarterly" (jsNewDate 2025 5 10) (by decide)⟩
